import Mathlib

/-!
Shallow embedding of `frontend/rust-lib/collab-integrate/src/collab_builder.rs`
(the AppFlowy collaborative-object lifecycle builder) together with the small
slice of its external collaborators (the `collab` CRDT core, the key-value
storage handle, the plugin provider) that the builder's observable behaviour
depends on.  Rust `Weak<T>` references are modelled as `Option T` (an expired
weak reference upgrades to `none`); the mutable CRDT core is modelled as an
explicit state value threaded through the functions; fallible Rust functions
return `Except`; Rust panics surface as a dedicated `RunResult.panicked`
constructor.  Side effects that the specification talks about (plugin
attachment, replay of durable updates, flush attempts, provider calls,
exposure of the finished handle) are recorded in an explicit event trace so
that temporal claims become statements about lists.
-/

namespace AppFlowy

/-- Byte strings (`Vec<u8>` in the source), modelled as lists of naturals. -/
abbrev Bytes := List Nat

/-- `collab_entity::CollabType` (the variants used by this repository). -/
inductive CollabType where
  | Document
  | Database
  | WorkspaceDatabase
  | Folder
  | DatabaseRow
  | UserAwareness
  | Unknown
  deriving DecidableEq, Repr

/-- `collab_entity::CollabObject`: the immutable identity of a collaborative
object, in the field order of `CollabObject::new(uid, object_id, collab_type,
workspace_id, device_id)`. -/
structure CollabObject where
  uid : Int
  object_id : String
  collab_type : CollabType
  workspace_id : String
  device_id : String
  deriving DecidableEq, Repr

/-- One stored record of the key-value store: the compacted snapshot (state
vector + doc state) plus the accumulated incremental updates.  `corruptAt`
models a corrupt durable history: replay fails after `k` of the updates have
already been applied (`none` = healthy record). -/
structure DocRecord where
  state_vector : Bytes
  doc_state : Bytes
  updates : List Bytes
  corruptAt : Option Nat
  deriving DecidableEq, Repr

/-- The transactional key-value store (`CollabKVDB`), keyed by
`(uid, workspace_id, object_id)`.  `fail_flush` injects a storage-level write
failure, modelling a failing `flush_doc` call. -/
structure CollabKVDB where
  docs : List ((Int × String × String) × DocRecord)
  fail_flush : Bool
  deriving DecidableEq, Repr

/-- Rust `Weak<T>`: upgrading yields the target when it is still alive. -/
abbrev Weak (α : Type) := Option α

/-- `Weak::upgrade`. -/
def Weak.upgrade {α : Type} (w : Weak α) : Option α := w

/-- Lookup of a stored record under its key. -/
def CollabKVDB.get (db : CollabKVDB) (uid : Int) (workspace_id object_id : String) :
    Option DocRecord :=
  (db.docs.find? (fun kv => decide (kv.1 = (uid, workspace_id, object_id)))).map (fun kv => kv.2)

/-- `read_txn.is_exist(uid, workspace_id, object_id)`. -/
def CollabKVDB.is_exist (db : CollabKVDB) (uid : Int) (workspace_id object_id : String) : Bool :=
  db.docs.any (fun kv => decide (kv.1 = (uid, workspace_id, object_id)))

/-- A write transaction: the staged state of the store.  Changes become
visible only through `commit_transaction`. -/
structure WriteTxn where
  pending : CollabKVDB
  deriving DecidableEq, Repr

/-- `CollabKVDB::write_txn`. -/
def CollabKVDB.write_txn (db : CollabKVDB) : WriteTxn := ⟨db⟩

/-- `write_txn.flush_doc(uid, workspace_id, object_id, state_vector, doc_state)`:
removes all stored updates for the key and stages the compacted snapshot under
that same key.  Fails when the store injects a write failure. -/
def WriteTxn.flush_doc (t : WriteTxn) (uid : Int) (workspace_id object_id : String)
    (state_vector doc_state : Bytes) : Except String WriteTxn :=
  if t.pending.fail_flush then .error ("flush_doc failed")
  else
    .ok ⟨{ t.pending with
            docs := (t.pending.docs.filter
                      (fun kv => !(decide (kv.1 = (uid, workspace_id, object_id)))))
                    ++ [((uid, workspace_id, object_id),
                         ⟨state_vector, doc_state, [], none⟩)] }⟩

/-- `write_txn.commit_transaction`: publishes the staged state. -/
def WriteTxn.commit_transaction (t : WriteTxn) : Except String CollabKVDB := .ok t.pending

/-- `collab::entity::EncodedCollab`: the compacted snapshot of a core. -/
structure EncodedCollab where
  state_vector : Bytes
  doc_state : Bytes
  deriving DecidableEq, Repr

/-- `collab::error::CollabError` (the variant this file produces). -/
inductive CollabError where
  | Internal (msg : String)
  deriving DecidableEq, Repr

/-- `CollabPersistenceImpl`: the persistence adapter; holds the storage handle
weakly together with the owner and workspace of the keys it touches. -/
structure CollabPersistenceImpl where
  db : Weak CollabKVDB
  uid : Int
  workspace_id : String
  deriving DecidableEq, Repr

/-- `collab::core::collab::DataSource` (the variants this repository uses):
either hydrate from disk through an optional persistence adapter, or from an
encoded byte payload. -/
inductive DataSource where
  | Disk (persistence : Option CollabPersistenceImpl)
  | DocStateV1 (bytes : Bytes)
  deriving DecidableEq, Repr

/-- `CollabPersistenceImpl::into_data_source`. -/
def CollabPersistenceImpl.into_data_source (p : CollabPersistenceImpl) : DataSource :=
  DataSource.Disk (some p)

/-- A plugin attached to a collaborative core: either the rocksdb disk plugin
built by `build_collab` (carrying the key data and the weak storage handle it
was constructed with) or a cloud/synchronization plugin returned by the plugin
provider. -/
inductive Plugin where
  | rocksdbDisk (uid : Int) (workspace_id object_id : String)
      (collab_type : CollabType) (collab_db : Weak CollabKVDB)
  | cloud (id : Nat)
  deriving DecidableEq, Repr

/-- Whether a plugin is a cloud/synchronization plugin. -/
def Plugin.is_cloud : Plugin → Bool
  | .cloud _ => true
  | .rocksdbDisk _ _ _ _ _ => false

/-- The raw collaborative core (`collab::preclude::Collab`), modelled from the
spec's description of the external CRDT library: mutable CRDT state
(`applied` records the replayed/seeded payloads), an ordered plugin list, and
a once-only guard on the durable-update replay that `initialize` performs
(the spec declares re-running it idempotent). -/
structure Collab where
  uid : Int
  object_id : String
  device_id : String
  data_source : DataSource
  plugins : List Plugin
  initDone : Bool
  applied : List Bytes
  undo_redo_enabled : Bool
  deriving DecidableEq, Repr

/-- `Collab::add_plugin`: appends to the ordered plugin list. -/
def Collab.add_plugin (c : Collab) (p : Plugin) : Collab :=
  { c with plugins := c.plugins ++ [p] }

/-- `Collab::has_cloud_plugin`: some attached plugin is a cloud plugin. -/
def Collab.has_cloud_plugin (c : Collab) : Bool :=
  c.plugins.any Plugin.is_cloud

/-- `Collab::enable_undo_redo`. -/
def Collab.enable_undo_redo (c : Collab) : Collab :=
  { c with undo_redo_enabled := true }

/-- Applying a list of replayed or seeded payloads to the CRDT state. -/
def Collab.appendApplied (c : Collab) (us : List Bytes) : Collab :=
  { c with applied := c.applied ++ us }

/-- `Collab::encode_collab_v1`: the compacted snapshot of the current state
(abstract but deterministic encoding; `validate_require_data` passes for every
core this builder constructs). -/
def Collab.encode_collab_v1 (c : Collab) : EncodedCollab :=
  ⟨[c.applied.length], c.applied.flatten⟩

/-- `load_doc_with_txn(uid, workspace_id, object_id, txn)`: replays the stored
record into the core's open transaction.  On a corrupt record the prefix that
was already replayed stays applied and an error is returned; on success the
update count is returned. -/
def load_doc_with_txn (db : CollabKVDB) (uid : Int) (workspace_id object_id : String)
    (c : Collab) : Collab × Except String Nat :=
  match db.get uid workspace_id object_id with
  | none => (c, .error ("doc not found"))
  | some rec =>
    match rec.corruptAt with
    | none =>
        (c.appendApplied ([rec.doc_state] ++ rec.updates), .ok rec.updates.length)
    | some k =>
        (c.appendApplied ([rec.doc_state] ++ rec.updates.take k), .error ("load doc failed"))

/-- `CollabPersistenceImpl::load_collab_from_disk` (the `CollabPersistence`
load hook): upgrade the weak storage handle (error when dropped); when a
record exists under `(uid, workspace_id, object_id)`, replay it inside a
transaction on the core — a replay error is logged and the transaction is
committed with whatever was replayed; when no record exists, succeed leaving
the core untouched. -/
def CollabPersistenceImpl.load_collab_from_disk (p : CollabPersistenceImpl)
    (collab : Collab) : Except CollabError Collab :=
  match Weak.upgrade p.db with
  | none => .error (.Internal ("collab_db is dropped"))
  | some collab_db =>
    let object_id := collab.object_id
    let workspace_id := p.workspace_id
    if CollabKVDB.is_exist collab_db p.uid workspace_id object_id then
      -- replay errors are logged (`error!`) and not propagated; txn.commit()
      let loaded := (load_doc_with_txn collab_db p.uid workspace_id object_id collab).1
      .ok loaded
    else
      .ok collab

/-- `CollabPersistenceImpl::save_collab_to_disk` (the `CollabPersistence`
save hook): upgrade the weak storage handle (error when dropped), then flush
the compacted snapshot under `(uid, workspace_id, object_id)` inside a write
transaction and commit it, returning the committed store. -/
def CollabPersistenceImpl.save_collab_to_disk (p : CollabPersistenceImpl)
    (object_id : String) (encoded_collab : EncodedCollab) : Except CollabError CollabKVDB :=
  let workspace_id := p.workspace_id
  match Weak.upgrade p.db with
  | none => .error (.Internal ("collab_db is dropped"))
  | some collab_db =>
    let write_txn := CollabKVDB.write_txn collab_db
    match WriteTxn.flush_doc write_txn p.uid workspace_id object_id
            encoded_collab.state_vector encoded_collab.doc_state with
    | .error err => .error (.Internal err)
    | .ok write_txn =>
      match WriteTxn.commit_transaction write_txn with
      | .error err => .error (.Internal err)
      | .ok db => .ok db

/-- A strong reference-counted shared handle (`Arc<RwLock<T>>`); `id` is the
allocation identity. -/
structure ArcHandle where
  id : Nat
  deriving DecidableEq, Repr

/-- A weak, non-owning reference to a shared handle (`Weak<RwLock<...>>`):
it records only the target's identity and cannot keep the target alive. -/
structure WeakHandle where
  target_id : Nat
  deriving DecidableEq, Repr

/-- `Arc::downgrade`: the weak reference to the same allocation. -/
def ArcHandle.downgrade (a : ArcHandle) : WeakHandle := ⟨a.id⟩

/-- `CollabPluginProviderType`. -/
inductive CollabPluginProviderType where
  | Local
  | AppFlowyCloud
  deriving DecidableEq, Repr

/-- `CollabPluginProviderContext`: the context handed to the plugin provider.
In the `AppFlowyCloud` variant the handle travels only as a `WeakHandle`,
mirroring the `Weak<RwLock<dyn BorrowMut<Collab> + ..>>` field type of the
source. -/
inductive CollabPluginProviderContext where
  | Local
  | AppFlowyCloud (uid : Int) (collab_object : CollabObject) (local_collab : WeakHandle)
  deriving DecidableEq, Repr

/-- Observable events of a builder run, recorded in order. -/
inductive Event where
  | addPlugin (p : Plugin)
  | initCall
  | replay
  | getPlugins (ctx : CollabPluginProviderContext)
  | flushAttempt (uid : Int) (workspace_id object_id : String)
  | expose
  deriving DecidableEq, Repr

/-- Discriminator: a durable-update replay event. -/
def Event.isReplay : Event → Bool
  | .replay => true
  | _ => false

/-- Discriminator: a plugin-provider request event. -/
def Event.isGetPlugins : Event → Bool
  | .getPlugins _ => true
  | _ => false

/-- Discriminator: a durable-flush attempt event. -/
def Event.isFlushAttempt : Event → Bool
  | .flushAttempt _ _ _ => true
  | _ => false

/-- `Collab::initialize`.  Modelled from the spec: the external library's
initialization triggers the persistence load hook exactly once, replaying any
durable updates into the core (a replay failure is treated as nothing to
load); re-running it is idempotent, so a second call replays nothing.  The
trace records the call and, on the first call, the replay. -/
def Collab.runInit (c : Collab) : Collab × List Event :=
  if c.initDone then (c, [Event.initCall])
  else
    let loaded :=
      match c.data_source with
      | .Disk (some p) =>
        match CollabPersistenceImpl.load_collab_from_disk p c with
        | .ok c2 => c2
        | .error _ => c
      | _ => c
    ({ loaded with initDone := true }, [Event.initCall, Event.replay])

/-- `collab_plugins::connect_state::CollabConnectState`: the process-wide
connectivity state read by synchronization plugins. -/
inductive CollabConnectState where
  | Connected
  | Disconnected
  deriving DecidableEq, Repr

/-- `CollabCloudPluginProvider`: the provider abstraction, reduced to the two
capabilities the builder consumes. -/
structure CollabCloudPluginProvider where
  provider_type : CollabPluginProviderType
  get_plugins : CollabPluginProviderContext → List Plugin

/-- `WorkspaceCollabIntegrate`: the workspace-context oracle; both accessors
are fallible in the source. -/
structure WorkspaceCollabIntegrate where
  workspace_id : Except String String
  device_id : Except String String

/-- `AppFlowyCollabBuilder`.  The `snapshot_persistence` and `rocksdb_backup`
slots of the source are never read by any function modelled here and are
omitted. -/
structure AppFlowyCollabBuilder where
  network_reachability : CollabConnectState
  plugin_provider : CollabCloudPluginProvider
  workspace_integrate : WorkspaceCollabIntegrate

/-- `CollabBuilderConfig`. -/
structure CollabBuilderConfig where
  sync_enable : Bool
  deriving DecidableEq, Repr

/-- `CollabBuilderConfig::default` (`sync_enable = true`). -/
def CollabBuilderConfig.default : CollabBuilderConfig := ⟨true⟩

/-- `AppFlowyCollabBuilder::update_network`: maps the reachability flag onto
the process-wide connectivity state. -/
def AppFlowyCollabBuilder.update_network (b : AppFlowyCollabBuilder)
    (reachable : Bool) : AppFlowyCollabBuilder :=
  if reachable then
    { b with network_reachability := CollabConnectState.Connected }
  else
    { b with network_reachability := CollabConnectState.Disconnected }

/-- `AppFlowyCollabBuilder::collab_object`: confirms the requested workspace
matches the currently active one (error carrying both ids on mismatch), then
builds the identity from the given data and the integrator's device id.  The
function touches no storage and no network. -/
def AppFlowyCollabBuilder.collab_object (b : AppFlowyCollabBuilder)
    (workspace_id : String) (uid : Int) (object_id : String)
    (collab_type : CollabType) : Except String CollabObject :=
  match b.workspace_integrate.workspace_id with
  | .error e => .error e
  | .ok actual_workspace_id =>
    if workspace_id ≠ actual_workspace_id then
      .error ("workspace_id not match when build collab. expect workspace_id: "
              ++ workspace_id ++ ", actual workspace_id: " ++ actual_workspace_id)
    else
      match b.workspace_integrate.device_id with
      | .error e => .error e
      | .ok device_id =>
        .ok ⟨uid, object_id, collab_type, workspace_id, device_id⟩

/-- `CollabBuilder::new(uid, object_id, data_source).with_device_id(..).build()`:
the fresh raw core — no plugins, not yet initialized, no applied state. -/
def CollabBuilder.build (uid : Int) (object_id : String) (data_source : DataSource)
    (device_id : String) : Collab :=
  { uid := uid, object_id := object_id, device_id := device_id,
    data_source := data_source, plugins := [], initDone := false,
    applied := [], undo_redo_enabled := false }

/-- The `RocksdbDiskPlugin` that `build_collab` constructs for an object. -/
def disk_plugin (object : CollabObject) (collab_db : Weak CollabKVDB) : Plugin :=
  Plugin.rocksdbDisk object.uid object.workspace_id object.object_id
    object.collab_type collab_db

/-- `AppFlowyCollabBuilder::build_collab`: build the raw core on a blocking
context, attach the rocksdb disk plugin, then initialize (replaying durable
updates).  The trace records plugin attachment and initialization in order. -/
def AppFlowyCollabBuilder.build_collab (b : AppFlowyCollabBuilder)
    (object : CollabObject) (collab_db : Weak CollabKVDB)
    (data_source : DataSource) : Except String (Collab × List Event) :=
  match b.workspace_integrate.device_id with
  | .error e => .error e
  | .ok device_id =>
    let collab := CollabBuilder.build object.uid object.object_id data_source device_id
    let db_plugin := disk_plugin object collab_db
    let collab := collab.add_plugin db_plugin
    let (collab, initEvents) := collab.runInit
    .ok (collab, [Event.addPlugin db_plugin] ++ initEvents)

/-- Seed data for a brand-new document (`collab_document::blocks::DocumentData`),
kept abstract behind an encoding into the CRDT state. -/
structure DocumentData where
  page_id : String
  deriving DecidableEq, Repr

/-- Abstract encoding of document seed data into a CRDT payload. -/
def DocumentData.encode (d : DocumentData) : Bytes :=
  d.page_id.toUTF8.toList.map (fun b => b.toNat)

/-- Seed data for a brand-new folder (`collab_folder::FolderData`). -/
structure FolderData where
  current_view : String
  deriving DecidableEq, Repr

/-- Abstract encoding of folder seed data into a CRDT payload. -/
def FolderData.encode (d : FolderData) : Bytes :=
  d.current_view.toUTF8.toList.map (fun b => b.toNat)

/-- `collab_document::document::Document`: the typed view over a core. -/
structure Document where
  collab : Collab
  deriving DecidableEq, Repr

/-- `Document::open` (named `open` in the source; `open` is reserved here).
Modelled from the spec: opening the typed view over a hydrated core; failure
of the external constructor is not modelled (it is propagated before any
other step and no claim concerns it). -/
def Document.openDoc (collab : Collab) : Except String Document :=
  .ok ⟨collab⟩

/-- `Document::create_with_data`: the typed view seeded with the given data.
Modelled from the spec: constructing the typed view from seed data; failure
of the external constructor is not modelled (it is propagated before the
flush and no claim concerns it). -/
def Document.create_with_data (collab : Collab) (data : DocumentData) :
    Except String Document :=
  .ok ⟨collab.appendApplied [data.encode]⟩

/-- `collab_folder::Folder`. -/
structure Folder where
  uid : Int
  collab : Collab
  deriving DecidableEq, Repr

/-- `Folder::open` (named `open` in the source). -/
def Folder.openFolder (uid : Int) (collab : Collab) (_notifier : Option Unit) :
    Except String Folder :=
  .ok ⟨uid, collab⟩

/-- `Folder::create` (infallible in the source). -/
def Folder.create (uid : Int) (collab : Collab) (_notifier : Option Unit)
    (data : FolderData) : Folder :=
  ⟨uid, collab.appendApplied [data.encode]⟩

/-- `collab_user::core::UserAwareness`. -/
structure UserAwareness where
  collab : Collab
  deriving DecidableEq, Repr

/-- `UserAwareness::create`. -/
def UserAwareness.create (collab : Collab) (_notifier : Option Unit) :
    Except String UserAwareness :=
  .ok ⟨collab⟩

/-- `collab_database::workspace_database::WorkspaceDatabaseManager`. -/
structure WorkspaceDatabaseManager where
  object_id : String
  collab : Collab
  deriving DecidableEq, Repr

/-- `WorkspaceDatabaseManager::open` (named `open` in the source). -/
def WorkspaceDatabaseManager.openManager (object_id : String) (collab : Collab)
    (_collab_service : Unit) : Except String WorkspaceDatabaseManager :=
  .ok ⟨object_id, collab⟩

/-- Rust's `BorrowMut<Collab>` bound on the typed views: read the embedded
core and write it back.  The law states that writing then reading yields the
written core (true of every instance below by construction). -/
class BorrowMutCollab (T : Type) where
  borrow : T → Collab
  replaceCollab : T → Collab → T
  borrow_replace : ∀ (t : T) (c : Collab), borrow (replaceCollab t c) = c

instance : BorrowMutCollab Collab where
  borrow := fun c => c
  replaceCollab := fun _ c => c
  borrow_replace := fun _ _ => rfl

instance : BorrowMutCollab Document where
  borrow := fun d => d.collab
  replaceCollab := fun d c => { d with collab := c }
  borrow_replace := fun _ _ => rfl

instance : BorrowMutCollab Folder where
  borrow := fun d => d.collab
  replaceCollab := fun d c => { d with collab := c }
  borrow_replace := fun _ _ => rfl

instance : BorrowMutCollab UserAwareness where
  borrow := fun d => d.collab
  replaceCollab := fun d c => { d with collab := c }
  borrow_replace := fun _ _ => rfl

instance : BorrowMutCollab WorkspaceDatabaseManager where
  borrow := fun d => d.collab
  replaceCollab := fun d c => { d with collab := c }
  borrow_replace := fun _ _ => rfl

/-- `AppFlowyCollabBuilder::finalize`.  `try_write` is modelled as always
succeeding (sequential embedding: the handle is not yet shared, so the lock
is free).  If the core already carries a cloud plugin the handle is returned
unchanged (no events).  Otherwise, with synchronization enabled and a
remote-collaboration provider, the provider is asked for plugins with a
context carrying the uid, the object identity and the *downgraded* handle,
and each returned plugin is attached while exclusive access is held; the
trailing re-initialization then runs and the handle is returned. -/
def AppFlowyCollabBuilder.finalize {T : Type} [BorrowMutCollab T]
    (b : AppFlowyCollabBuilder) (object : CollabObject)
    (build_config : CollabBuilderConfig) (handle : ArcHandle) (t : T) :
    (ArcHandle × T) × List Event :=
  let has_cloud_plugin := (BorrowMutCollab.borrow t).has_cloud_plugin
  if has_cloud_plugin then ((handle, t), [])
  else
    let (t, evs) :=
      if build_config.sync_enable then
        match b.plugin_provider.provider_type with
        | .AppFlowyCloud =>
          let local_collab := handle.downgrade
          let ctx := CollabPluginProviderContext.AppFlowyCloud object.uid object local_collab
          let plugins := b.plugin_provider.get_plugins ctx
          (plugins.foldl
             (fun acc p =>
               BorrowMutCollab.replaceCollab acc
                 (Collab.add_plugin (BorrowMutCollab.borrow acc) p)) t,
           [Event.getPlugins ctx] ++ plugins.map Event.addPlugin)
        | .Local => (t, [])
      else (t, [])
    let stepped := Collab.runInit (BorrowMutCollab.borrow t)
    ((handle, BorrowMutCollab.replaceCollab t stepped.1), evs ++ stepped.2)

/-- `AppFlowyCollabBuilder::write_collab_to_disk` (a `&self` method that reads
no builder state): upgrade the weak storage handle — when it is dropped, log
and return `Ok(())`; otherwise encode the compacted snapshot and flush it
inside a committed write transaction, propagating encode/flush/commit errors.
The trace records the flush attempt. -/
def write_collab_to_disk (uid : Int) (workspace_id object_id : String)
    (collab_db : Weak CollabKVDB) (_collab_type : CollabType) (collab : Collab) :
    Except String Unit × List Event :=
  let ev := [Event.flushAttempt uid workspace_id object_id]
  match Weak.upgrade collab_db with
  | some collab_db =>
    let write_txn := CollabKVDB.write_txn collab_db
    let encode_collab := collab.encode_collab_v1
    match WriteTxn.flush_doc write_txn uid workspace_id object_id
            encode_collab.state_vector encode_collab.doc_state with
    | .error e => (.error e, ev)
    | .ok write_txn =>
      match WriteTxn.commit_transaction write_txn with
      | .error e => (.error e, ev)
      | .ok _ => (.ok (), ev)
  | none =>
    -- error!("collab_db is dropped"); the source still returns Ok(())
    (.ok (), ev)

/-- Outcome of a construction entry point: success, a propagated error, or a
Rust panic (from `assert_eq!`). -/
inductive RunResult (α : Type) where
  | ok (value : α)
  | err (msg : String)
  | panicked (msg : String)
  deriving DecidableEq, Repr

/-- The `assert_eq!(object.collab_type, expected_collab_type)` panic text. -/
def assertTypeMsg : String :=
  "assertion failed: object.collab_type == expected_collab_type"

/-- `Arc::new`: allocation identity is immaterial to the claims, modelled as 0. -/
def ArcHandle.fresh : ArcHandle := ⟨0⟩

/-- `AppFlowyCollabBuilder::create_document`: assert the identity's type,
build the raw core (disk plugin + initialization), enable undo/redo, open or
seed the typed view — seeding triggers one best-effort durable flush whose
failure is logged, never propagated — then finalize and expose the handle. -/
def AppFlowyCollabBuilder.create_document (b : AppFlowyCollabBuilder)
    (object : CollabObject) (data_source : DataSource)
    (collab_db : Weak CollabKVDB) (builder_config : CollabBuilderConfig)
    (data : Option DocumentData) :
    RunResult (ArcHandle × Document) × List Event :=
  if object.collab_type = CollabType.Document then
    match b.build_collab object collab_db data_source with
    | .error e => (.err e, [])
    | .ok (collab, buildEvents) =>
      let collab := collab.enable_undo_redo
      match data with
      | none =>
        match Document.openDoc collab with
        | .error e => (.err e, buildEvents)
        | .ok document =>
          let handle := ArcHandle.fresh
          let fin := b.finalize object builder_config handle document
          (.ok fin.1, buildEvents ++ fin.2 ++ [Event.expose])
      | some data =>
        match Document.create_with_data collab data with
        | .error e => (.err e, buildEvents)
        | .ok document =>
          -- `if let Err(err) = self.write_collab_to_disk(..) { error!(..) }`:
          -- the flush result is logged and deliberately discarded
          let flushEvents := (write_collab_to_disk object.uid object.workspace_id
              object.object_id collab_db object.collab_type
              (BorrowMutCollab.borrow document)).2
          let handle := ArcHandle.fresh
          let fin := b.finalize object builder_config handle document
          (.ok fin.1, buildEvents ++ flushEvents ++ fin.2 ++ [Event.expose])
  else (.panicked assertTypeMsg, [])

/-- `AppFlowyCollabBuilder::create_folder`. -/
def AppFlowyCollabBuilder.create_folder (b : AppFlowyCollabBuilder)
    (object : CollabObject) (doc_state : DataSource)
    (collab_db : Weak CollabKVDB) (builder_config : CollabBuilderConfig)
    (folder_notifier : Option Unit) (folder_data : Option FolderData) :
    RunResult (ArcHandle × Folder) × List Event :=
  if object.collab_type = CollabType.Folder then
    match folder_data with
    | none =>
      match b.build_collab object collab_db doc_state with
      | .error e => (.err e, [])
      | .ok (collab, buildEvents) =>
        match Folder.openFolder object.uid collab folder_notifier with
        | .error e => (.err e, buildEvents)
        | .ok folder =>
          let handle := ArcHandle.fresh
          let fin := b.finalize object builder_config handle folder
          (.ok fin.1, buildEvents ++ fin.2 ++ [Event.expose])
    | some data =>
      match b.build_collab object collab_db doc_state with
      | .error e => (.err e, [])
      | .ok (collab, buildEvents) =>
        let folder := Folder.create object.uid collab folder_notifier data
        let flushEvents := (write_collab_to_disk object.uid object.workspace_id
            object.object_id collab_db object.collab_type
            (BorrowMutCollab.borrow folder)).2
        let handle := ArcHandle.fresh
        let fin := b.finalize object builder_config handle folder
        (.ok fin.1, buildEvents ++ flushEvents ++ fin.2 ++ [Event.expose])
  else (.panicked assertTypeMsg, [])

/-- `AppFlowyCollabBuilder::create_user_awareness`. -/
def AppFlowyCollabBuilder.create_user_awareness (b : AppFlowyCollabBuilder)
    (object : CollabObject) (doc_state : DataSource)
    (collab_db : Weak CollabKVDB) (builder_config : CollabBuilderConfig)
    (notifier : Option Unit) :
    RunResult (ArcHandle × UserAwareness) × List Event :=
  if object.collab_type = CollabType.UserAwareness then
    match b.build_collab object collab_db doc_state with
    | .error e => (.err e, [])
    | .ok (collab, buildEvents) =>
      match UserAwareness.create collab notifier with
      | .error e => (.err e, buildEvents)
      | .ok user_awareness =>
        let handle := ArcHandle.fresh
        let fin := b.finalize object builder_config handle user_awareness
        (.ok fin.1, buildEvents ++ fin.2 ++ [Event.expose])
  else (.panicked assertTypeMsg, [])

/-- `AppFlowyCollabBuilder::create_workspace_database_manager` (takes an
already-built core and does not call `build_collab`). -/
def AppFlowyCollabBuilder.create_workspace_database_manager (b : AppFlowyCollabBuilder)
    (object : CollabObject) (collab : Collab) (_collab_db : Weak CollabKVDB)
    (builder_config : CollabBuilderConfig) (collab_service : Unit) :
    RunResult (ArcHandle × WorkspaceDatabaseManager) × List Event :=
  if object.collab_type = CollabType.WorkspaceDatabase then
    match WorkspaceDatabaseManager.openManager object.object_id collab collab_service with
    | .error e => (.err e, [])
    | .ok workspace =>
      let handle := ArcHandle.fresh
      let fin := b.finalize object builder_config handle workspace
      (.ok fin.1, fin.2 ++ [Event.expose])
  else (.panicked assertTypeMsg, [])

/-- The core produced by a successful `build_collab` run. -/
def built_core (object : CollabObject) (collab_db : Weak CollabKVDB)
    (data_source : DataSource) (device_id : String) : Collab :=
  (Collab.runInit
    ((CollabBuilder.build object.uid object.object_id data_source device_id).add_plugin
      (disk_plugin object collab_db))).1

/-! ### Concrete sample inputs (used to exercise the theorems below) -/

def sampleIntegrate : WorkspaceCollabIntegrate :=
  ⟨.ok ("W"), .ok ("dev")⟩

def sampleProviderCloud : CollabCloudPluginProvider :=
  ⟨CollabPluginProviderType.AppFlowyCloud, fun _ => [Plugin.cloud 1]⟩

def sampleProviderLocal : CollabCloudPluginProvider :=
  ⟨CollabPluginProviderType.Local, fun _ => []⟩

def sampleBuilder : AppFlowyCollabBuilder :=
  ⟨CollabConnectState.Disconnected, sampleProviderCloud, sampleIntegrate⟩

def sampleBuilderLocal : AppFlowyCollabBuilder :=
  ⟨CollabConnectState.Disconnected, sampleProviderLocal, sampleIntegrate⟩

def sampleObjectDoc : CollabObject :=
  ⟨1, "D1", CollabType.Document, "W", "dev"⟩

def sampleObjectFolder : CollabObject :=
  ⟨1, "F1", CollabType.Folder, "W", "dev"⟩

def sampleObjectUA : CollabObject :=
  ⟨1, "U1", CollabType.UserAwareness, "W", "dev"⟩

def sampleObjectWDB : CollabObject :=
  ⟨1, "WD1", CollabType.WorkspaceDatabase, "W", "dev"⟩

def sampleDb : CollabKVDB := ⟨[], false⟩

def sampleFailDb : CollabKVDB := ⟨[], true⟩

/-- A record whose durable history is corrupt after one replayed update. -/
def sampleCorruptRec : DocRecord := ⟨[1], [2], [[3], [4]], some 1⟩

def sampleCorruptDb : CollabKVDB := ⟨[((1, "W", "D1"), sampleCorruptRec)], false⟩

def sampleCollab : Collab :=
  CollabBuilder.build 1 ("D1") (DataSource.DocStateV1 []) ("dev")

def sampleCloudCollab : Collab :=
  sampleCollab.add_plugin (Plugin.cloud 9)

/-! ### Helper lemmas -/

theorem add_plugin_initDone (c : Collab) (p : Plugin) :
    (c.add_plugin p).initDone = c.initDone := rfl

theorem add_plugin_plugins (c : Collab) (p : Plugin) :
    (c.add_plugin p).plugins = c.plugins ++ [p] := rfl

theorem appendApplied_plugins (c : Collab) (us : List Bytes) :
    (c.appendApplied us).plugins = c.plugins := rfl

theorem appendApplied_initDone (c : Collab) (us : List Bytes) :
    (c.appendApplied us).initDone = c.initDone := rfl

theorem load_doc_with_txn_plugins (db : CollabKVDB) (uid : Int)
    (workspace_id object_id : String) (c : Collab) :
    ((load_doc_with_txn db uid workspace_id object_id c).1).plugins = c.plugins := by
  cases hget : db.get uid workspace_id object_id with
  | none => simp [load_doc_with_txn, hget]
  | some rec =>
    cases hca : rec.corruptAt with
    | none => simp [load_doc_with_txn, hget, hca, Collab.appendApplied]
    | some k => simp [load_doc_with_txn, hget, hca, Collab.appendApplied]

theorem load_collab_from_disk_ok_plugins (p : CollabPersistenceImpl) (c c2 : Collab)
    (h : p.load_collab_from_disk c = .ok c2) : c2.plugins = c.plugins := by
  cases hdb : p.db with
  | none =>
    simp [CollabPersistenceImpl.load_collab_from_disk, Weak.upgrade, hdb] at h
  | some db =>
    by_cases he : CollabKVDB.is_exist db p.uid p.workspace_id c.object_id
    · simp [CollabPersistenceImpl.load_collab_from_disk, Weak.upgrade, hdb, he] at h
      subst h
      exact load_doc_with_txn_plugins db p.uid p.workspace_id c.object_id c
    · simp [CollabPersistenceImpl.load_collab_from_disk, Weak.upgrade, hdb, he] at h
      subst h
      rfl

theorem runInit_plugins (c : Collab) : (Collab.runInit c).1.plugins = c.plugins := by
  by_cases h : c.initDone
  · simp [Collab.runInit, h]
  · cases hds : c.data_source with
    | Disk po =>
      cases po with
      | none => simp [Collab.runInit, h, hds]
      | some p =>
        cases hl : p.load_collab_from_disk c with
        | ok c2 =>
          simp only [Collab.runInit, h, Bool.false_eq_true, if_false, hds, hl]
          exact load_collab_from_disk_ok_plugins p c c2 hl
        | error e => simp [Collab.runInit, h, hds, hl]
    | DocStateV1 bs => simp [Collab.runInit, h, hds]

theorem runInit_initDone (c : Collab) : (Collab.runInit c).1.initDone = true := by
  unfold Collab.runInit
  by_cases h : c.initDone
  · simp [h]
  · simp [h]

theorem runInit_events_done (c : Collab) (h : c.initDone = true) :
    (Collab.runInit c).2 = [Event.initCall] := by
  unfold Collab.runInit
  simp [h]

theorem runInit_events_fresh (c : Collab) (h : c.initDone = false) :
    (Collab.runInit c).2 = [Event.initCall, Event.replay] := by
  unfold Collab.runInit
  simp [h]

theorem countP_isReplay_map_addPlugin (l : List Plugin) :
    (l.map Event.addPlugin).countP Event.isReplay = 0 := by
  induction l with
  | nil => rfl
  | cons p l ih => simp [List.countP_cons, ih, Event.isReplay]

theorem filter_isGetPlugins_map_addPlugin (l : List Plugin) :
    (l.map Event.addPlugin).filter Event.isGetPlugins = [] := by
  induction l with
  | nil => rfl
  | cons p l ih => simp [List.filter_cons, ih, Event.isGetPlugins]

theorem countP_isFlushAttempt_map_addPlugin (l : List Plugin) :
    (l.map Event.addPlugin).countP Event.isFlushAttempt = 0 := by
  induction l with
  | nil => rfl
  | cons p l ih => simp [List.countP_cons, ih, Event.isFlushAttempt]

theorem borrow_foldl {T : Type} [BorrowMutCollab T] (plugins : List Plugin) (t : T) :
    BorrowMutCollab.borrow
      (plugins.foldl (fun acc p =>
        BorrowMutCollab.replaceCollab acc
          (Collab.add_plugin (BorrowMutCollab.borrow acc) p)) t)
    = plugins.foldl Collab.add_plugin (BorrowMutCollab.borrow t) := by
  induction plugins generalizing t with
  | nil => rfl
  | cons p ps ih =>
    simp only [List.foldl_cons]
    rw [ih, BorrowMutCollab.borrow_replace]

theorem foldl_add_plugin_initDone (plugins : List Plugin) (c : Collab) :
    (plugins.foldl Collab.add_plugin c).initDone = c.initDone := by
  induction plugins generalizing c with
  | nil => rfl
  | cons p ps ih =>
    simp only [List.foldl_cons]
    rw [ih]
    rfl

theorem has_cloud_plugin_eq_of_plugins (c c2 : Collab) (h : c2.plugins = c.plugins) :
    c2.has_cloud_plugin = c.has_cloud_plugin := by
  unfold Collab.has_cloud_plugin
  rw [h]

theorem finalize_has_cloud_eq {T : Type} [BorrowMutCollab T]
    (b : AppFlowyCollabBuilder) (object : CollabObject) (cfg : CollabBuilderConfig)
    (handle : ArcHandle) (t : T)
    (hc : (BorrowMutCollab.borrow t).has_cloud_plugin = true) :
    b.finalize object cfg handle t = ((handle, t), []) := by
  unfold AppFlowyCollabBuilder.finalize
  simp [hc]

theorem finalize_sync_off {T : Type} [BorrowMutCollab T]
    (b : AppFlowyCollabBuilder) (object : CollabObject) (cfg : CollabBuilderConfig)
    (handle : ArcHandle) (t : T)
    (hc : (BorrowMutCollab.borrow t).has_cloud_plugin = false)
    (hs : cfg.sync_enable = false) :
    b.finalize object cfg handle t =
      ((handle,
        BorrowMutCollab.replaceCollab t (Collab.runInit (BorrowMutCollab.borrow t)).1),
       (Collab.runInit (BorrowMutCollab.borrow t)).2) := by
  unfold AppFlowyCollabBuilder.finalize
  simp [hc, hs]

theorem finalize_local {T : Type} [BorrowMutCollab T]
    (b : AppFlowyCollabBuilder) (object : CollabObject) (cfg : CollabBuilderConfig)
    (handle : ArcHandle) (t : T)
    (hc : (BorrowMutCollab.borrow t).has_cloud_plugin = false)
    (hp : b.plugin_provider.provider_type = CollabPluginProviderType.Local) :
    b.finalize object cfg handle t =
      ((handle,
        BorrowMutCollab.replaceCollab t (Collab.runInit (BorrowMutCollab.borrow t)).1),
       (Collab.runInit (BorrowMutCollab.borrow t)).2) := by
  unfold AppFlowyCollabBuilder.finalize
  by_cases hs : cfg.sync_enable
  · simp [hc, hs, hp]
  · simp [hc, hs]

theorem finalize_cloud {T : Type} [BorrowMutCollab T]
    (b : AppFlowyCollabBuilder) (object : CollabObject) (cfg : CollabBuilderConfig)
    (handle : ArcHandle) (t : T)
    (hc : (BorrowMutCollab.borrow t).has_cloud_plugin = false)
    (hs : cfg.sync_enable = true)
    (hp : b.plugin_provider.provider_type = CollabPluginProviderType.AppFlowyCloud) :
    b.finalize object cfg handle t =
      (let ctx := CollabPluginProviderContext.AppFlowyCloud object.uid object handle.downgrade
       let plugins := b.plugin_provider.get_plugins ctx
       let t2 := plugins.foldl
         (fun acc p =>
           BorrowMutCollab.replaceCollab acc
             (Collab.add_plugin (BorrowMutCollab.borrow acc) p)) t
       ((handle,
         BorrowMutCollab.replaceCollab t2 (Collab.runInit (BorrowMutCollab.borrow t2)).1),
        ([Event.getPlugins ctx] ++ plugins.map Event.addPlugin)
          ++ (Collab.runInit (BorrowMutCollab.borrow t2)).2)) := by
  unfold AppFlowyCollabBuilder.finalize
  simp [hc, hs, hp]

theorem finalize_handle {T : Type} [BorrowMutCollab T]
    (b : AppFlowyCollabBuilder) (object : CollabObject) (cfg : CollabBuilderConfig)
    (handle : ArcHandle) (t : T) :
    (b.finalize object cfg handle t).1.1 = handle := by
  cases hc : (BorrowMutCollab.borrow t).has_cloud_plugin with
  | true => rw [finalize_has_cloud_eq b object cfg handle t hc]
  | false =>
    by_cases hs : cfg.sync_enable
    · cases hp : b.plugin_provider.provider_type with
      | Local => rw [finalize_local b object cfg handle t hc hp]
      | AppFlowyCloud => rw [finalize_cloud b object cfg handle t hc hs hp]
    · rw [finalize_sync_off b object cfg handle t hc (by simpa using hs)]

theorem finalize_events_no_replay {T : Type} [BorrowMutCollab T]
    (b : AppFlowyCollabBuilder) (object : CollabObject) (cfg : CollabBuilderConfig)
    (handle : ArcHandle) (t : T)
    (h : (BorrowMutCollab.borrow t).initDone = true) :
    ((b.finalize object cfg handle t).2).countP Event.isReplay = 0 := by
  cases hc : (BorrowMutCollab.borrow t).has_cloud_plugin with
  | true => rw [finalize_has_cloud_eq b object cfg handle t hc]; rfl
  | false =>
    by_cases hs : cfg.sync_enable
    · cases hp : b.plugin_provider.provider_type with
      | Local =>
        rw [finalize_local b object cfg handle t hc hp, runInit_events_done _ h]
        rfl
      | AppFlowyCloud =>
        rw [finalize_cloud b object cfg handle t hc hs hp]
        simp only [List.countP_append]
        have h2 : (BorrowMutCollab.borrow
            ((b.plugin_provider.get_plugins
                (CollabPluginProviderContext.AppFlowyCloud object.uid object
                  handle.downgrade)).foldl
              (fun acc p =>
                BorrowMutCollab.replaceCollab acc
                  (Collab.add_plugin (BorrowMutCollab.borrow acc) p)) t)).initDone = true := by
          rw [borrow_foldl, foldl_add_plugin_initDone]
          exact h
        rw [runInit_events_done _ h2, countP_isReplay_map_addPlugin]
        rfl
    · rw [finalize_sync_off b object cfg handle t hc (by simpa using hs),
          runInit_events_done _ h]
      rfl

theorem finalize_result_plugins_no_attach {T : Type} [BorrowMutCollab T]
    (b : AppFlowyCollabBuilder) (object : CollabObject) (cfg : CollabBuilderConfig)
    (handle : ArcHandle) (t : T)
    (h : cfg.sync_enable = false ∨
         b.plugin_provider.provider_type = CollabPluginProviderType.Local) :
    (BorrowMutCollab.borrow (b.finalize object cfg handle t).1.2).plugins
      = (BorrowMutCollab.borrow t).plugins := by
  cases hc : (BorrowMutCollab.borrow t).has_cloud_plugin with
  | true => rw [finalize_has_cloud_eq b object cfg handle t hc]
  | false =>
    cases h with
    | inl hs =>
      rw [finalize_sync_off b object cfg handle t hc hs]
      simp only [BorrowMutCollab.borrow_replace]
      exact runInit_plugins _
    | inr hp =>
      rw [finalize_local b object cfg handle t hc hp]
      simp only [BorrowMutCollab.borrow_replace]
      exact runInit_plugins _

theorem runInit_events_shape (c : Collab) :
    (Collab.runInit c).2 = [Event.initCall] ∨
    (Collab.runInit c).2 = [Event.initCall, Event.replay] := by
  by_cases h : c.initDone
  · exact Or.inl (runInit_events_done c h)
  · exact Or.inr (runInit_events_fresh c (by simpa using h))

theorem runInit_events_no_getPlugins (c : Collab) :
    (Collab.runInit c).2.filter Event.isGetPlugins = [] := by
  cases runInit_events_shape c with
  | inl h => rw [h]; rfl
  | inr h => rw [h]; rfl

theorem runInit_events_no_flush (c : Collab) :
    (Collab.runInit c).2.countP Event.isFlushAttempt = 0 := by
  cases runInit_events_shape c with
  | inl h => rw [h]; rfl
  | inr h => rw [h]; rfl

theorem finalize_events_no_flush {T : Type} [BorrowMutCollab T]
    (b : AppFlowyCollabBuilder) (object : CollabObject) (cfg : CollabBuilderConfig)
    (handle : ArcHandle) (t : T) :
    ((b.finalize object cfg handle t).2).countP Event.isFlushAttempt = 0 := by
  cases hc : (BorrowMutCollab.borrow t).has_cloud_plugin with
  | true => rw [finalize_has_cloud_eq b object cfg handle t hc]; rfl
  | false =>
    by_cases hs : cfg.sync_enable
    · cases hp : b.plugin_provider.provider_type with
      | Local =>
        rw [finalize_local b object cfg handle t hc hp]
        exact runInit_events_no_flush _
      | AppFlowyCloud =>
        rw [finalize_cloud b object cfg handle t hc hs hp]
        simp only [List.countP_append, countP_isFlushAttempt_map_addPlugin,
          runInit_events_no_flush]
        rfl
    · rw [finalize_sync_off b object cfg handle t hc (by simpa using hs)]
      exact runInit_events_no_flush _

theorem built_core_plugins (object : CollabObject) (collab_db : Weak CollabKVDB)
    (data_source : DataSource) (device_id : String) :
    (built_core object collab_db data_source device_id).plugins
      = [disk_plugin object collab_db] := by
  unfold built_core
  rw [runInit_plugins]
  rfl

theorem built_core_initDone (object : CollabObject) (collab_db : Weak CollabKVDB)
    (data_source : DataSource) (device_id : String) :
    (built_core object collab_db data_source device_id).initDone = true :=
  runInit_initDone _

theorem built_core_has_cloud (object : CollabObject) (collab_db : Weak CollabKVDB)
    (data_source : DataSource) (device_id : String) :
    (built_core object collab_db data_source device_id).has_cloud_plugin = false := by
  unfold Collab.has_cloud_plugin
  rw [built_core_plugins]
  simp [disk_plugin, Plugin.is_cloud]

theorem build_collab_eq (b : AppFlowyCollabBuilder) (object : CollabObject)
    (collab_db : Weak CollabKVDB) (data_source : DataSource) (dev : String)
    (hd : b.workspace_integrate.device_id = .ok dev) :
    b.build_collab object collab_db data_source =
      .ok (built_core object collab_db data_source dev,
           [Event.addPlugin (disk_plugin object collab_db),
            Event.initCall, Event.replay]) := by
  unfold AppFlowyCollabBuilder.build_collab
  rw [hd]
  have hfresh :
      ((CollabBuilder.build object.uid object.object_id data_source dev).add_plugin
        (disk_plugin object collab_db)).initDone = false := rfl
  simp only [built_core, runInit_events_fresh _ hfresh]
  rfl

theorem write_collab_to_disk_events (uid : Int) (workspace_id object_id : String)
    (collab_db : Weak CollabKVDB) (ct : CollabType) (c : Collab) :
    (write_collab_to_disk uid workspace_id object_id collab_db ct c).2
      = [Event.flushAttempt uid workspace_id object_id] := by
  cases collab_db with
  | none => rfl
  | some kv =>
    by_cases hff : kv.fail_flush
    · simp [write_collab_to_disk, Weak.upgrade, WriteTxn.flush_doc,
        CollabKVDB.write_txn, hff]
    · simp [write_collab_to_disk, Weak.upgrade, WriteTxn.flush_doc,
        CollabKVDB.write_txn, WriteTxn.commit_transaction, hff]

theorem create_document_none_eq (b : AppFlowyCollabBuilder) (object : CollabObject)
    (data_source : DataSource) (collab_db : Weak CollabKVDB)
    (cfg : CollabBuilderConfig) (dev : String)
    (ht : object.collab_type = CollabType.Document)
    (hd : b.workspace_integrate.device_id = .ok dev) :
    b.create_document object data_source collab_db cfg none =
      (let document :=
         Document.mk ((built_core object collab_db data_source dev).enable_undo_redo)
       let fin := b.finalize object cfg ArcHandle.fresh document
       (.ok fin.1,
        [Event.addPlugin (disk_plugin object collab_db), Event.initCall, Event.replay]
          ++ fin.2 ++ [Event.expose])) := by
  unfold AppFlowyCollabBuilder.create_document
  rw [if_pos ht, build_collab_eq b object collab_db data_source dev hd]
  simp [Document.openDoc]

theorem create_document_some_eq (b : AppFlowyCollabBuilder) (object : CollabObject)
    (data_source : DataSource) (collab_db : Weak CollabKVDB)
    (cfg : CollabBuilderConfig) (data : DocumentData) (dev : String)
    (ht : object.collab_type = CollabType.Document)
    (hd : b.workspace_integrate.device_id = .ok dev) :
    b.create_document object data_source collab_db cfg (some data) =
      (let document :=
         Document.mk
           (((built_core object collab_db data_source dev).enable_undo_redo).appendApplied
             [data.encode])
       let fin := b.finalize object cfg ArcHandle.fresh document
       (.ok fin.1,
        [Event.addPlugin (disk_plugin object collab_db), Event.initCall, Event.replay]
          ++ [Event.flushAttempt object.uid object.workspace_id object.object_id]
          ++ fin.2 ++ [Event.expose])) := by
  unfold AppFlowyCollabBuilder.create_document
  rw [if_pos ht, build_collab_eq b object collab_db data_source dev hd]
  simp [Document.create_with_data, write_collab_to_disk_events]

theorem create_folder_none_eq (b : AppFlowyCollabBuilder) (object : CollabObject)
    (doc_state : DataSource) (collab_db : Weak CollabKVDB)
    (cfg : CollabBuilderConfig) (notifier : Option Unit) (dev : String)
    (ht : object.collab_type = CollabType.Folder)
    (hd : b.workspace_integrate.device_id = .ok dev) :
    b.create_folder object doc_state collab_db cfg notifier none =
      (let folder := Folder.mk object.uid (built_core object collab_db doc_state dev)
       let fin := b.finalize object cfg ArcHandle.fresh folder
       (.ok fin.1,
        [Event.addPlugin (disk_plugin object collab_db), Event.initCall, Event.replay]
          ++ fin.2 ++ [Event.expose])) := by
  unfold AppFlowyCollabBuilder.create_folder
  rw [if_pos ht]
  simp only [build_collab_eq b object collab_db doc_state dev hd]
  simp [Folder.openFolder]

theorem create_folder_some_eq (b : AppFlowyCollabBuilder) (object : CollabObject)
    (doc_state : DataSource) (collab_db : Weak CollabKVDB)
    (cfg : CollabBuilderConfig) (notifier : Option Unit) (data : FolderData) (dev : String)
    (ht : object.collab_type = CollabType.Folder)
    (hd : b.workspace_integrate.device_id = .ok dev) :
    b.create_folder object doc_state collab_db cfg notifier (some data) =
      (let folder :=
         Folder.mk object.uid
           ((built_core object collab_db doc_state dev).appendApplied [data.encode])
       let fin := b.finalize object cfg ArcHandle.fresh folder
       (.ok fin.1,
        [Event.addPlugin (disk_plugin object collab_db), Event.initCall, Event.replay]
          ++ [Event.flushAttempt object.uid object.workspace_id object.object_id]
          ++ fin.2 ++ [Event.expose])) := by
  unfold AppFlowyCollabBuilder.create_folder
  rw [if_pos ht]
  simp only [build_collab_eq b object collab_db doc_state dev hd]
  simp [Folder.create, write_collab_to_disk_events]

theorem filter_isFlushAttempt_map_addPlugin (l : List Plugin) :
    (l.map Event.addPlugin).filter Event.isFlushAttempt = [] := by
  induction l with
  | nil => rfl
  | cons p l ih => simp [List.filter_cons, ih, Event.isFlushAttempt]

theorem runInit_events_filter_flush (c : Collab) :
    (Collab.runInit c).2.filter Event.isFlushAttempt = [] := by
  cases runInit_events_shape c with
  | inl h => rw [h]; rfl
  | inr h => rw [h]; rfl

theorem finalize_events_filter_flush {T : Type} [BorrowMutCollab T]
    (b : AppFlowyCollabBuilder) (object : CollabObject) (cfg : CollabBuilderConfig)
    (handle : ArcHandle) (t : T) :
    ((b.finalize object cfg handle t).2).filter Event.isFlushAttempt = [] := by
  cases hc : (BorrowMutCollab.borrow t).has_cloud_plugin with
  | true => rw [finalize_has_cloud_eq b object cfg handle t hc]; rfl
  | false =>
    by_cases hs : cfg.sync_enable
    · cases hp : b.plugin_provider.provider_type with
      | Local =>
        rw [finalize_local b object cfg handle t hc hp]
        exact runInit_events_filter_flush _
      | AppFlowyCloud =>
        rw [finalize_cloud b object cfg handle t hc hs hp]
        simp only [List.filter_append, filter_isFlushAttempt_map_addPlugin,
          runInit_events_filter_flush]
        rfl
    · rw [finalize_sync_off b object cfg handle t hc (by simpa using hs)]
      exact runInit_events_filter_flush _

theorem find?_filter_concat (l : List ((Int × String × String) × DocRecord))
    (k : Int × String × String) (rec : DocRecord) :
    List.find? (fun kv => decide (kv.1 = k))
      ((l.filter (fun kv => !(decide (kv.1 = k)))) ++ [(k, rec)]) = some (k, rec) := by
  induction l with
  | nil => simp [List.find?]
  | cons a l ih =>
    by_cases ha : a.1 = k
    · simp [List.filter_cons, ha, ih]
    · simp [List.filter_cons, ha, List.find?, ih]

theorem flush_doc_ok (db : CollabKVDB) (uid : Int) (ws oid : String) (sv ds : Bytes)
    (h : db.fail_flush = false) :
    WriteTxn.flush_doc (CollabKVDB.write_txn db) uid ws oid sv ds =
      .ok ⟨{ db with
              docs := (db.docs.filter (fun kv => !(decide (kv.1 = (uid, ws, oid)))))
                      ++ [((uid, ws, oid), ⟨sv, ds, [], none⟩)] }⟩ := by
  simp [WriteTxn.flush_doc, CollabKVDB.write_txn, h]

theorem get_after_flush (db : CollabKVDB) (uid : Int) (ws oid : String) (sv ds : Bytes) :
    CollabKVDB.get
      { db with
        docs := (db.docs.filter (fun kv => !(decide (kv.1 = (uid, ws, oid)))))
                ++ [((uid, ws, oid), ⟨sv, ds, [], none⟩)] }
      uid ws oid = some ⟨sv, ds, [], none⟩ := by
  unfold CollabKVDB.get
  rw [find?_filter_concat]
  rfl

theorem is_exist_of_get_some (db : CollabKVDB) (uid : Int) (ws oid : String)
    (rec : DocRecord) (h : db.get uid ws oid = some rec) :
    db.is_exist uid ws oid = true := by
  unfold CollabKVDB.get at h
  unfold CollabKVDB.is_exist
  cases hf : db.docs.find? (fun kv => decide (kv.1 = (uid, ws, oid))) with
  | none => rw [hf] at h; cases h
  | some kv =>
    rw [List.any_eq_true]
    have hp := List.find?_some hf
    exact ⟨kv, List.mem_of_find?_eq_some hf, hp⟩

theorem enable_undo_redo_plugins (c : Collab) :
    (c.enable_undo_redo).plugins = c.plugins := rfl

theorem enable_undo_redo_initDone (c : Collab) :
    (c.enable_undo_redo).initDone = c.initDone := rfl

theorem isReplay_addPlugin (p : Plugin) : Event.isReplay (Event.addPlugin p) = false := rfl

theorem isReplay_initCall : Event.isReplay Event.initCall = false := rfl

theorem isReplay_replay : Event.isReplay Event.replay = true := rfl

theorem isReplay_expose : Event.isReplay Event.expose = false := rfl

theorem isReplay_flushAttempt (uid : Int) (ws oid : String) :
    Event.isReplay (Event.flushAttempt uid ws oid) = false := rfl

theorem isFlushAttempt_addPlugin (p : Plugin) :
    Event.isFlushAttempt (Event.addPlugin p) = false := rfl

theorem isFlushAttempt_initCall : Event.isFlushAttempt Event.initCall = false := rfl

theorem isFlushAttempt_replay : Event.isFlushAttempt Event.replay = false := rfl

theorem isFlushAttempt_expose : Event.isFlushAttempt Event.expose = false := rfl

theorem isFlushAttempt_flushAttempt (uid : Int) (ws oid : String) :
    Event.isFlushAttempt (Event.flushAttempt uid ws oid) = true := rfl

theorem isGetPlugins_getPlugins (ctx : CollabPluginProviderContext) :
    Event.isGetPlugins (Event.getPlugins ctx) = true := rfl

/-! ### Claims -/

/-- C9: `update_network` maps the reachability flag onto the process-wide
connectivity state exactly — `true` yields `Connected`, `false` yields
`Disconnected` — and touches no other builder state. -/
theorem update_network_maps_reachability (b : AppFlowyCollabBuilder) :
    (b.update_network true).network_reachability = CollabConnectState.Connected ∧
    (b.update_network false).network_reachability = CollabConnectState.Disconnected ∧
    (∀ r, (b.update_network r).plugin_provider = b.plugin_provider ∧
          (b.update_network r).workspace_integrate = b.workspace_integrate) := by
  refine ⟨rfl, rfl, ?_⟩
  intro r
  cases r
  · exact ⟨rfl, rfl⟩
  · exact ⟨rfl, rfl⟩

/-- C10: each of the four construction entry points asserts that the supplied
identity's `collab_type` equals the family's expected type and panics on the
assertion — before constructing anything (empty trace) — instead of returning
a typed error. -/
theorem create_entry_points_assert_collab_type :
    (∀ (b : AppFlowyCollabBuilder) (object : CollabObject) (ds : DataSource)
       (db : Weak CollabKVDB) (cfg : CollabBuilderConfig) (data : Option DocumentData),
       object.collab_type ≠ CollabType.Document →
       b.create_document object ds db cfg data = (.panicked assertTypeMsg, [])) ∧
    (∀ (b : AppFlowyCollabBuilder) (object : CollabObject) (ds : DataSource)
       (db : Weak CollabKVDB) (cfg : CollabBuilderConfig) (notifier : Option Unit)
       (data : Option FolderData),
       object.collab_type ≠ CollabType.Folder →
       b.create_folder object ds db cfg notifier data = (.panicked assertTypeMsg, [])) ∧
    (∀ (b : AppFlowyCollabBuilder) (object : CollabObject) (ds : DataSource)
       (db : Weak CollabKVDB) (cfg : CollabBuilderConfig) (notifier : Option Unit),
       object.collab_type ≠ CollabType.UserAwareness →
       b.create_user_awareness object ds db cfg notifier = (.panicked assertTypeMsg, [])) ∧
    (∀ (b : AppFlowyCollabBuilder) (object : CollabObject) (collab : Collab)
       (db : Weak CollabKVDB) (cfg : CollabBuilderConfig) (svc : Unit),
       object.collab_type ≠ CollabType.WorkspaceDatabase →
       b.create_workspace_database_manager object collab db cfg svc
         = (.panicked assertTypeMsg, [])) := by
  refine ⟨?_, ?_, ?_, ?_⟩
  · intro b object ds db cfg data h
    unfold AppFlowyCollabBuilder.create_document
    rw [if_neg h]
  · intro b object ds db cfg notifier data h
    unfold AppFlowyCollabBuilder.create_folder
    rw [if_neg h]
  · intro b object ds db cfg notifier h
    unfold AppFlowyCollabBuilder.create_user_awareness
    rw [if_neg h]
  · intro b object collab db cfg svc h
    unfold AppFlowyCollabBuilder.create_workspace_database_manager
    rw [if_neg h]

theorem create_entry_points_assert_collab_type_witness :
    sampleObjectFolder.collab_type ≠ CollabType.Document ∧
    sampleBuilder.create_document sampleObjectFolder (DataSource.DocStateV1 [])
        (some sampleDb) ⟨true⟩ none = (.panicked assertTypeMsg, []) :=
  ⟨by decide,
   create_entry_points_assert_collab_type.1 sampleBuilder sampleObjectFolder
     (DataSource.DocStateV1 []) (some sampleDb) ⟨true⟩ none (by decide)⟩

/-- C3: `collab_object` validates the requested workspace against the
currently active one: a mismatch fails with an error message carrying both
the expected and the actual workspace id (no storage handle is ever
consulted), and a match yields the identity built from the given uid,
object id, collab type, the workspace id and the integrator's device id. -/
theorem collab_object_workspace_validation (b : AppFlowyCollabBuilder)
    (workspace_id : String) (uid : Int) (object_id : String) (collab_type : CollabType)
    (actual : String)
    (ha : b.workspace_integrate.workspace_id = .ok actual) :
    (workspace_id ≠ actual →
       b.collab_object workspace_id uid object_id collab_type =
         .error ("workspace_id not match when build collab. expect workspace_id: "
                 ++ workspace_id ++ ", actual workspace_id: " ++ actual)) ∧
    (workspace_id = actual →
       ∀ dev, b.workspace_integrate.device_id = .ok dev →
         b.collab_object workspace_id uid object_id collab_type =
           .ok ⟨uid, object_id, collab_type, workspace_id, dev⟩) := by
  constructor
  · intro hne
    unfold AppFlowyCollabBuilder.collab_object
    rw [ha]
    simp [hne]
  · intro heq dev hd
    unfold AppFlowyCollabBuilder.collab_object
    rw [ha]
    simp [heq, hd]

theorem collab_object_workspace_validation_witness :
    sampleBuilder.workspace_integrate.workspace_id = .ok ("W") ∧
    ("X" : String) ≠ "W" ∧
    sampleBuilder.collab_object ("X") 1 ("D1") CollabType.Document =
      .error ("workspace_id not match when build collab. expect workspace_id: "
              ++ "X" ++ ", actual workspace_id: " ++ "W") :=
  ⟨rfl, by decide,
   (collab_object_workspace_validation sampleBuilder ("X") 1 ("D1")
      CollabType.Document ("W") rfl).1 (by decide)⟩

/-- C5: when the persistence adapter's weak storage handle has expired,
`save_collab_to_disk` returns the storage-unavailable error (total function:
no panic, no state written); when the handle is alive and the store accepts
writes, it commits a write transaction holding the state vector and doc state
under the key `(uid, workspace_id, object_id)`. -/
theorem save_collab_to_disk_weak_handle :
    (∀ (p : CollabPersistenceImpl) (object_id : String) (enc : EncodedCollab),
       p.db = none →
       p.save_collab_to_disk object_id enc
         = .error (CollabError.Internal ("collab_db is dropped"))) ∧
    (∀ (p : CollabPersistenceImpl) (db : CollabKVDB) (object_id : String)
       (enc : EncodedCollab),
       p.db = some db → db.fail_flush = false →
       ∃ db2, p.save_collab_to_disk object_id enc = .ok db2 ∧
         db2.get p.uid p.workspace_id object_id
           = some ⟨enc.state_vector, enc.doc_state, [], none⟩) := by
  constructor
  · intro p object_id enc hdb
    unfold CollabPersistenceImpl.save_collab_to_disk
    simp [Weak.upgrade, hdb]
  · intro p db object_id enc hdb hff
    refine ⟨_, ?_, get_after_flush db p.uid p.workspace_id object_id
                     enc.state_vector enc.doc_state⟩
    unfold CollabPersistenceImpl.save_collab_to_disk
    simp only [Weak.upgrade, hdb]
    rw [flush_doc_ok db p.uid p.workspace_id object_id
          enc.state_vector enc.doc_state hff]
    rfl

theorem save_collab_to_disk_weak_handle_witness :
    (⟨none, 1, "W"⟩ : CollabPersistenceImpl).db = none ∧
    CollabPersistenceImpl.save_collab_to_disk ⟨none, 1, "W"⟩ ("D1") ⟨[7], [8]⟩
      = .error (CollabError.Internal ("collab_db is dropped")) :=
  ⟨rfl, save_collab_to_disk_weak_handle.1 ⟨none, 1, "W"⟩ ("D1") ⟨[7], [8]⟩ rfl⟩

/-- C6: when the stored entry exists but replaying it fails (corrupt
history), `load_collab_from_disk` logs the error and still succeeds, with
the state replayed up to the failure point applied; when no entry exists for
the key, it succeeds leaving the core unchanged. -/
theorem load_collab_from_disk_degrades :
    (∀ (p : CollabPersistenceImpl) (db : CollabKVDB) (c : Collab)
       (rec : DocRecord) (k : Nat),
       p.db = some db →
       db.get p.uid p.workspace_id c.object_id = some rec →
       rec.corruptAt = some k →
       p.load_collab_from_disk c
         = .ok (c.appendApplied ([rec.doc_state] ++ rec.updates.take k))) ∧
    (∀ (p : CollabPersistenceImpl) (db : CollabKVDB) (c : Collab),
       p.db = some db →
       db.is_exist p.uid p.workspace_id c.object_id = false →
       p.load_collab_from_disk c = .ok c) := by
  constructor
  · intro p db c rec k hdb hget hk
    have he := is_exist_of_get_some db p.uid p.workspace_id c.object_id rec hget
    unfold CollabPersistenceImpl.load_collab_from_disk
    simp only [Weak.upgrade, hdb, he, if_true]
    simp [load_doc_with_txn, hget, hk]
  · intro p db c hdb hne
    unfold CollabPersistenceImpl.load_collab_from_disk
    simp [Weak.upgrade, hdb, hne]

theorem load_collab_from_disk_degrades_witness :
    (⟨some sampleCorruptDb, 1, "W"⟩ : CollabPersistenceImpl).db = some sampleCorruptDb ∧
    sampleCorruptDb.get 1 ("W") sampleCollab.object_id = some sampleCorruptRec ∧
    sampleCorruptRec.corruptAt = some 1 ∧
    CollabPersistenceImpl.load_collab_from_disk ⟨some sampleCorruptDb, 1, "W"⟩ sampleCollab
      = .ok (sampleCollab.appendApplied
              ([sampleCorruptRec.doc_state] ++ sampleCorruptRec.updates.take 1)) :=
  ⟨rfl, by decide, rfl,
   load_collab_from_disk_degrades.1 ⟨some sampleCorruptDb, 1, "W"⟩ sampleCorruptDb
     sampleCollab sampleCorruptRec 1 rfl (by decide) rfl⟩

/-- C1: when the core behind the shared handle already carries a
cloud/synchronization plugin, `finalize` — under any configuration — returns
the handle unchanged with an empty trace (no plugin attached, no provider
consulted, no re-initialization), so a second finalize leaves the plugin
count exactly as after the first. -/
theorem finalize_idempotent_when_cloud_present {T : Type} [BorrowMutCollab T]
    (b : AppFlowyCollabBuilder) (object : CollabObject) (cfg : CollabBuilderConfig)
    (handle : ArcHandle) (t : T)
    (h : (BorrowMutCollab.borrow t).has_cloud_plugin = true) :
    b.finalize object cfg handle t = ((handle, t), []) ∧
    (BorrowMutCollab.borrow
        ((b.finalize object cfg handle
            ((b.finalize object cfg handle t).1.2)).1.2)).plugins.length
      = (BorrowMutCollab.borrow ((b.finalize object cfg handle t).1.2)).plugins.length := by
  have he := finalize_has_cloud_eq b object cfg handle t h
  refine ⟨he, ?_⟩
  simp only [he]

theorem finalize_idempotent_when_cloud_present_witness :
    (BorrowMutCollab.borrow sampleCloudCollab).has_cloud_plugin = true ∧
    sampleBuilder.finalize sampleObjectDoc ⟨true⟩ ⟨0⟩ sampleCloudCollab
      = ((⟨0⟩, sampleCloudCollab), []) :=
  ⟨rfl,
   (finalize_idempotent_when_cloud_present sampleBuilder sampleObjectDoc ⟨true⟩ ⟨0⟩
      sampleCloudCollab rfl).1⟩

/-- C8: in remote-collaboration mode with synchronization enabled (and no
cloud plugin yet attached), `finalize` invokes the provider exactly once, and
the context it hands over is the `AppFlowyCloud` variant carrying the uid,
the full object identity, and the *downgraded* (weak) handle — a
`WeakHandle` recording only the target id, never the strong `ArcHandle`. -/
theorem provider_context_carries_weak_handle {T : Type} [BorrowMutCollab T]
    (b : AppFlowyCollabBuilder) (object : CollabObject) (cfg : CollabBuilderConfig)
    (handle : ArcHandle) (t : T)
    (hc : (BorrowMutCollab.borrow t).has_cloud_plugin = false)
    (hs : cfg.sync_enable = true)
    (hp : b.plugin_provider.provider_type = CollabPluginProviderType.AppFlowyCloud) :
    ((b.finalize object cfg handle t).2).filter Event.isGetPlugins
      = [Event.getPlugins
          (CollabPluginProviderContext.AppFlowyCloud object.uid object handle.downgrade)] ∧
    handle.downgrade = WeakHandle.mk handle.id := by
  refine ⟨?_, rfl⟩
  rw [finalize_cloud b object cfg handle t hc hs hp]
  simp only [List.filter_append, filter_isGetPlugins_map_addPlugin,
    runInit_events_no_getPlugins]
  simp [List.filter_cons, isGetPlugins_getPlugins]

theorem provider_context_carries_weak_handle_witness :
    (BorrowMutCollab.borrow sampleCollab).has_cloud_plugin = false ∧
    (⟨true⟩ : CollabBuilderConfig).sync_enable = true ∧
    sampleBuilder.plugin_provider.provider_type = CollabPluginProviderType.AppFlowyCloud ∧
    ((sampleBuilder.finalize sampleObjectDoc ⟨true⟩ ⟨5⟩ sampleCollab).2).filter
        Event.isGetPlugins
      = [Event.getPlugins
          (CollabPluginProviderContext.AppFlowyCloud sampleObjectDoc.uid sampleObjectDoc
            (ArcHandle.downgrade ⟨5⟩))] :=
  ⟨rfl, rfl, rfl,
   (provider_context_carries_weak_handle sampleBuilder sampleObjectDoc ⟨true⟩ ⟨5⟩
      sampleCollab rfl rfl rfl).1⟩

/-- C7: with synchronization disabled (or a local-only provider), `finalize`
attaches no synchronization plugin, so a core that had none still reports
`has_cloud_plugin = false`; end to end, `create_document` with
`sync_enable = false` returns a handle whose core has `has_cloud_plugin =
false`. -/
theorem no_sync_plugins_when_sync_disabled :
    (∀ {T : Type} [BorrowMutCollab T] (b : AppFlowyCollabBuilder)
       (object : CollabObject) (cfg : CollabBuilderConfig) (handle : ArcHandle) (t : T),
       (cfg.sync_enable = false ∨
        b.plugin_provider.provider_type = CollabPluginProviderType.Local) →
       (BorrowMutCollab.borrow t).has_cloud_plugin = false →
       (BorrowMutCollab.borrow (b.finalize object cfg handle t).1.2).has_cloud_plugin
         = false) ∧
    (∀ (b : AppFlowyCollabBuilder) (object : CollabObject) (data_source : DataSource)
       (collab_db : Weak CollabKVDB) (data : Option DocumentData) (dev : String),
       object.collab_type = CollabType.Document →
       b.workspace_integrate.device_id = .ok dev →
       ∃ handle document,
         (b.create_document object data_source collab_db ⟨false⟩ data).1
           = .ok (handle, document) ∧
         document.collab.has_cloud_plugin = false) := by
  constructor
  · intro T inst b object cfg handle t hdisj hc
    rw [has_cloud_plugin_eq_of_plugins _ _
      (finalize_result_plugins_no_attach b object cfg handle t hdisj)]
    exact hc
  · intro b object data_source collab_db data dev ht hd
    cases data with
    | none =>
      rw [create_document_none_eq b object data_source collab_db ⟨false⟩ dev ht hd]
      refine ⟨_, _, rfl, ?_⟩
      show (BorrowMutCollab.borrow
        ((b.finalize object ⟨false⟩ ArcHandle.fresh
            (Document.mk
              ((built_core object collab_db data_source dev).enable_undo_redo))).1.2)).has_cloud_plugin
        = false
      rw [has_cloud_plugin_eq_of_plugins _ _
        (finalize_result_plugins_no_attach b object ⟨false⟩ ArcHandle.fresh
          (Document.mk ((built_core object collab_db data_source dev).enable_undo_redo))
          (Or.inl rfl))]
      show ((built_core object collab_db data_source dev).enable_undo_redo).has_cloud_plugin
        = false
      rw [has_cloud_plugin_eq_of_plugins _ _ (enable_undo_redo_plugins _)]
      exact built_core_has_cloud object collab_db data_source dev
    | some d =>
      rw [create_document_some_eq b object data_source collab_db ⟨false⟩ d dev ht hd]
      refine ⟨_, _, rfl, ?_⟩
      show (BorrowMutCollab.borrow
        ((b.finalize object ⟨false⟩ ArcHandle.fresh
            (Document.mk
              (((built_core object collab_db data_source dev).enable_undo_redo).appendApplied
                [d.encode]))).1.2)).has_cloud_plugin
        = false
      rw [has_cloud_plugin_eq_of_plugins _ _
        (finalize_result_plugins_no_attach b object ⟨false⟩ ArcHandle.fresh
          (Document.mk
            (((built_core object collab_db data_source dev).enable_undo_redo).appendApplied
              [d.encode]))
          (Or.inl rfl))]
      show ((((built_core object collab_db data_source dev).enable_undo_redo).appendApplied
              [d.encode])).has_cloud_plugin = false
      rw [has_cloud_plugin_eq_of_plugins _ _ (appendApplied_plugins _ _)]
      rw [has_cloud_plugin_eq_of_plugins _ _ (enable_undo_redo_plugins _)]
      exact built_core_has_cloud object collab_db data_source dev

theorem no_sync_plugins_when_sync_disabled_witness :
    ((⟨false⟩ : CollabBuilderConfig).sync_enable = false ∨
     sampleBuilder.plugin_provider.provider_type = CollabPluginProviderType.Local) ∧
    (BorrowMutCollab.borrow sampleCollab).has_cloud_plugin = false ∧
    (BorrowMutCollab.borrow
        (sampleBuilder.finalize sampleObjectDoc ⟨false⟩ ⟨0⟩ sampleCollab).1.2).has_cloud_plugin
      = false :=
  ⟨Or.inl rfl, rfl,
   no_sync_plugins_when_sync_disabled.1 sampleBuilder sampleObjectDoc ⟨false⟩ ⟨0⟩
     sampleCollab (Or.inl rfl) rfl⟩

/-- C2: `build_collab` attaches the rocksdb disk plugin and only then runs the
initialization that replays durable updates; across a whole `create_document`
run the replay happens exactly once — strictly after the persistence plugin
attachment and strictly before the handle is exposed (the final event). -/
theorem replay_once_after_persistence_before_expose :
    (∀ (b : AppFlowyCollabBuilder) (object : CollabObject) (collab_db : Weak CollabKVDB)
       (data_source : DataSource) (dev : String),
       b.workspace_integrate.device_id = .ok dev →
       b.build_collab object collab_db data_source
         = .ok (built_core object collab_db data_source dev,
                [Event.addPlugin (disk_plugin object collab_db),
                 Event.initCall, Event.replay])) ∧
    (∀ (b : AppFlowyCollabBuilder) (object : CollabObject) (data_source : DataSource)
       (collab_db : Weak CollabKVDB) (cfg : CollabBuilderConfig)
       (data : Option DocumentData) (dev : String),
       object.collab_type = CollabType.Document →
       b.workspace_integrate.device_id = .ok dev →
       ∃ mid,
         (b.create_document object data_source collab_db cfg data).2
           = [Event.addPlugin (disk_plugin object collab_db), Event.initCall, Event.replay]
             ++ mid ++ [Event.expose] ∧
         mid.countP Event.isReplay = 0 ∧
         ((b.create_document object data_source collab_db cfg data).2).countP
             Event.isReplay = 1) := by
  constructor
  · intro b object collab_db data_source dev hd
    exact build_collab_eq b object collab_db data_source dev hd
  · intro b object data_source collab_db cfg data dev ht hd
    cases data with
    | none =>
      have hInit : (BorrowMutCollab.borrow
          (Document.mk
            ((built_core object collab_db data_source dev).enable_undo_redo))).initDone
          = true := by
        show ((built_core object collab_db data_source dev).enable_undo_redo).initDone = true
        rw [enable_undo_redo_initDone]
        exact built_core_initDone object collab_db data_source dev
      refine ⟨(b.finalize object cfg ArcHandle.fresh
          (Document.mk
            ((built_core object collab_db data_source dev).enable_undo_redo))).2,
        ?_, finalize_events_no_replay b object cfg ArcHandle.fresh _ hInit, ?_⟩
      · rw [create_document_none_eq b object data_source collab_db cfg dev ht hd]
      · rw [create_document_none_eq b object data_source collab_db cfg dev ht hd]
        show (([Event.addPlugin (disk_plugin object collab_db), Event.initCall, Event.replay]
               ++ (b.finalize object cfg ArcHandle.fresh
                    (Document.mk
                      ((built_core object collab_db data_source dev).enable_undo_redo))).2)
              ++ [Event.expose]).countP Event.isReplay = 1
        rw [List.countP_append, List.countP_append,
            finalize_events_no_replay b object cfg ArcHandle.fresh _ hInit]
        rfl
    | some d =>
      have hInit : (BorrowMutCollab.borrow
          (Document.mk
            (((built_core object collab_db data_source dev).enable_undo_redo).appendApplied
              [d.encode]))).initDone = true := by
        show (((built_core object collab_db data_source dev).enable_undo_redo).appendApplied
              [d.encode]).initDone = true
        rw [appendApplied_initDone, enable_undo_redo_initDone]
        exact built_core_initDone object collab_db data_source dev
      refine ⟨[Event.flushAttempt object.uid object.workspace_id object.object_id]
          ++ (b.finalize object cfg ArcHandle.fresh
               (Document.mk
                 (((built_core object collab_db data_source dev).enable_undo_redo).appendApplied
                   [d.encode]))).2,
        ?_, ?_, ?_⟩
      · rw [create_document_some_eq b object data_source collab_db cfg d dev ht hd]
        simp [List.append_assoc]
      · rw [List.countP_append,
            finalize_events_no_replay b object cfg ArcHandle.fresh _ hInit]
        rfl
      · rw [create_document_some_eq b object data_source collab_db cfg d dev ht hd]
        show ((([Event.addPlugin (disk_plugin object collab_db), Event.initCall, Event.replay]
                ++ [Event.flushAttempt object.uid object.workspace_id object.object_id])
               ++ (b.finalize object cfg ArcHandle.fresh
                    (Document.mk
                      (((built_core object collab_db data_source dev).enable_undo_redo).appendApplied
                        [d.encode]))).2)
              ++ [Event.expose]).countP Event.isReplay = 1
        rw [List.countP_append, List.countP_append, List.countP_append,
            finalize_events_no_replay b object cfg ArcHandle.fresh _ hInit]
        rfl

theorem replay_once_after_persistence_before_expose_witness :
    sampleBuilder.workspace_integrate.device_id = .ok ("dev") ∧
    sampleBuilder.build_collab sampleObjectDoc (some sampleDb) (DataSource.DocStateV1 [])
      = .ok (built_core sampleObjectDoc (some sampleDb) (DataSource.DocStateV1 []) ("dev"),
             [Event.addPlugin (disk_plugin sampleObjectDoc (some sampleDb)),
              Event.initCall, Event.replay]) :=
  ⟨rfl,
   replay_once_after_persistence_before_expose.1 sampleBuilder sampleObjectDoc
     (some sampleDb) (DataSource.DocStateV1 []) ("dev") rfl⟩

/-- C4: creating a document or a folder with seed data attempts exactly one
durable flush — recorded under the object's own key — and returns the typed
handle successfully for every storage handle, including an expired weak
handle and a store that rejects the write (flush failure is logged, never
propagated). -/
theorem seeded_creation_flushes_exactly_once :
    (∀ (b : AppFlowyCollabBuilder) (object : CollabObject) (data_source : DataSource)
       (collab_db : Weak CollabKVDB) (cfg : CollabBuilderConfig)
       (data : DocumentData) (dev : String),
       object.collab_type = CollabType.Document →
       b.workspace_integrate.device_id = .ok dev →
       (∃ v, (b.create_document object data_source collab_db cfg (some data)).1 = .ok v) ∧
       ((b.create_document object data_source collab_db cfg (some data)).2).filter
           Event.isFlushAttempt
         = [Event.flushAttempt object.uid object.workspace_id object.object_id]) ∧
    (∀ (b : AppFlowyCollabBuilder) (object : CollabObject) (doc_state : DataSource)
       (collab_db : Weak CollabKVDB) (cfg : CollabBuilderConfig)
       (notifier : Option Unit) (data : FolderData) (dev : String),
       object.collab_type = CollabType.Folder →
       b.workspace_integrate.device_id = .ok dev →
       (∃ v, (b.create_folder object doc_state collab_db cfg notifier (some data)).1
               = .ok v) ∧
       ((b.create_folder object doc_state collab_db cfg notifier (some data)).2).filter
           Event.isFlushAttempt
         = [Event.flushAttempt object.uid object.workspace_id object.object_id]) := by
  constructor
  · intro b object data_source collab_db cfg data dev ht hd
    constructor
    · rw [create_document_some_eq b object data_source collab_db cfg data dev ht hd]
      exact ⟨_, rfl⟩
    · rw [create_document_some_eq b object data_source collab_db cfg data dev ht hd]
      show ((([Event.addPlugin (disk_plugin object collab_db), Event.initCall, Event.replay]
              ++ [Event.flushAttempt object.uid object.workspace_id object.object_id])
             ++ (b.finalize object cfg ArcHandle.fresh
                  (Document.mk
                    (((built_core object collab_db data_source dev).enable_undo_redo).appendApplied
                      [data.encode]))).2)
            ++ [Event.expose]).filter Event.isFlushAttempt
        = [Event.flushAttempt object.uid object.workspace_id object.object_id]
      rw [List.filter_append, List.filter_append, List.filter_append,
          finalize_events_filter_flush]
      rfl
  · intro b object doc_state collab_db cfg notifier data dev ht hd
    constructor
    · rw [create_folder_some_eq b object doc_state collab_db cfg notifier data dev ht hd]
      exact ⟨_, rfl⟩
    · rw [create_folder_some_eq b object doc_state collab_db cfg notifier data dev ht hd]
      show ((([Event.addPlugin (disk_plugin object collab_db), Event.initCall, Event.replay]
              ++ [Event.flushAttempt object.uid object.workspace_id object.object_id])
             ++ (b.finalize object cfg ArcHandle.fresh
                  (Folder.mk object.uid
                    ((built_core object collab_db doc_state dev).appendApplied
                      [data.encode]))).2)
            ++ [Event.expose]).filter Event.isFlushAttempt
        = [Event.flushAttempt object.uid object.workspace_id object.object_id]
      rw [List.filter_append, List.filter_append, List.filter_append,
          finalize_events_filter_flush]
      rfl

theorem seeded_creation_flushes_exactly_once_witness :
    sampleObjectDoc.collab_type = CollabType.Document ∧
    sampleBuilder.workspace_integrate.device_id = .ok ("dev") ∧
    ((∃ v, (sampleBuilder.create_document sampleObjectDoc (DataSource.DocStateV1 [])
              (some sampleFailDb) ⟨true⟩ (some ⟨"p"⟩)).1 = .ok v) ∧
     ((sampleBuilder.create_document sampleObjectDoc (DataSource.DocStateV1 [])
         (some sampleFailDb) ⟨true⟩ (some ⟨"p"⟩)).2).filter Event.isFlushAttempt
       = [Event.flushAttempt sampleObjectDoc.uid sampleObjectDoc.workspace_id
            sampleObjectDoc.object_id]) :=
  ⟨rfl, rfl,
   seeded_creation_flushes_exactly_once.1 sampleBuilder sampleObjectDoc
     (DataSource.DocStateV1 []) (some sampleFailDb) ⟨true⟩ ⟨"p"⟩ ("dev") rfl rfl⟩

end AppFlowy
